import Mathlib

/-!
Verification development for the fetch-normalize-filter-dedupe pipeline of
`src/main4.py` (repository `bus-tempo-real`).

The script body of `main4.py` (lines 270-389) turns the fetched GPS payload
into the rendered result set: line filter, coordinate normalization,
timestamp shift, validity drop, recency sort, deduplication by vehicle,
optional proximity filter, final ordering.  Everything below is a shallow
embedding of that code path; the doc comment of each definition cites the
lines of `main4.py` it embeds.

Modelling conventions:
* feed strings are lists of characters, so pandas' character-wise
  `str.replace(',', '.')` is a `List.map`;
* parsed coordinates are exact decimal values `num / 10 ^ exp`.  The source
  stores them as float64, but the pipeline never computes with them (they are
  only stored, compared and handed to the distance function), so the exact
  decimal value determines the behaviour modelled here;
* the row-wise distance computation is an oracle parameter of the pipeline
  (its numeric content, the Haversine formula, is settled separately with
  `haversine_distance` below over abstract trigonometric primitives, since
  float64 trigonometry itself is not shallowly embeddable);
* pandas sorts with an unspecified tie order (`kind='quicksort'`); the model
  fixes a stable insertion sort, which agrees with the source whenever the
  sort keys are distinct, as in every claim settled below.
-/

namespace BusTempo

/-- Feed strings, modelled as lists of characters. -/
abbrev Str := List Char

/-- Exact decimal number `num / 10 ^ exp`: the value of a plain decimal
string such as `-22.9559`.  Used as the result type of coordinate parsing. -/
structure Dec where
  num : Int
  exp : Nat
deriving DecidableEq

/-- Raw vehicle-position record: one element of the JSON array fetched in
main4.py line 268, after `pd.DataFrame(data)` and the lower-casing of column
names (lines 271-272).  `linha` is `none` when the field is missing from the
feed object (pandas stores NaN there; `astype(str)` later renders it as the
string "nan").  `datahora` holds the outcome of
`pd.to_datetime(_, unit='ms', errors='coerce')` on the raw field: `some t`
when the raw value parses as `t` milliseconds since the Unix epoch, `none`
(pandas NaT) when it is unparsable. -/
structure RawRecord where
  ordem : Str
  linha : Option Str
  latitude : Str
  longitude : Str
  datahora : Option Int
  velocidade : Str
deriving DecidableEq

/-- Rendering `astype(str)` applies to the `linha` column in main4.py line
275: a present string is unchanged and a missing/NaN field becomes the
literal string "nan". -/
def linhaStr : Option Str → Str
  | some s => s
  | none => ['n', 'a', 'n']

/-- Line filter test of main4.py line 275:
`df_realtime['linha'].astype(str).str.contains(linha_desejada, na=False)`.
`str.contains` treats the pattern as a regular expression; on patterns free
of regex metacharacters (every line query the spec contemplates) it is
literal substring containment, which is what we model.  After `astype(str)`
no NA values remain, so the `na=False` argument has no effect. -/
def lineMatches (linha_desejada : Str) (r : RawRecord) : Bool :=
  decide (linha_desejada <:+: linhaStr r.linha)

/-- Row selection `df_realtime[...]` of main4.py line 275. -/
def filterLine (linha_desejada : Str) (data : List RawRecord) : List RawRecord :=
  data.filter (lineMatches linha_desejada)

/-- Character-wise `str.replace(',', '.')` of main4.py lines 279-280. -/
def normalizeCoord (s : Str) : Str :=
  s.map (fun c => if c = ',' then '.' else c)

/-- Value of a block of decimal digits, most significant first. -/
def digitsVal (l : Str) : Nat :=
  l.foldl (fun a c => a * 10 + (c.toNat - 48)) 0

/-- Unsigned decimal parser: digits, optionally followed by a dot and further
digits, with at least one digit overall.  This is the grammar
`pd.to_numeric` accepts for the feed's plain decimal coordinate strings. -/
def parseUnsigned (s : Str) : Option Dec :=
  let intPart := s.takeWhile (fun c => c.isDigit)
  let rest := s.dropWhile (fun c => c.isDigit)
  match rest with
  | [] => if intPart.isEmpty then none else some ⟨(digitsVal intPart : Int), 0⟩
  | '.' :: frac =>
    if frac.all (fun c => c.isDigit) && !(intPart.isEmpty && frac.isEmpty) then
      some ⟨(digitsVal intPart : Int) * (10 : Int) ^ frac.length + (digitsVal frac : Int),
        frac.length⟩
    else none
  | _ => none

/-- Numeric coercion `pd.to_numeric(..., errors='coerce')` of main4.py lines
281-282, applied to an already dot-normalized coordinate string: optional
leading minus sign, then an unsigned decimal; `none` models the NaN produced
on parse failure. -/
def parseCoord : Str → Option Dec
  | '-' :: rest => (parseUnsigned rest).map (fun d => ⟨-d.num, d.exp⟩)
  | s => parseUnsigned s

/-- Three hours in milliseconds: the fixed UTC-3 adjustment
`pd.Timedelta(hours=3)` subtracted in main4.py line 286. -/
def brtShiftMs : Int := 10800000

/-- Timestamp conversion of main4.py lines 285-287: an unparsable timestamp
is NaT and stays NaT under the subtraction; a valid one is shifted by three
hours. -/
def shiftBRT (t : Option Int) : Option Int :=
  t.map (fun x => x - brtShiftMs)

/-- Row after the type treatment of main4.py lines 279-290: coordinates
parsed, timestamp shifted to BRT.  `datahora = none` is pandas NaT; note
that it survives `dropna(subset=['latitude', 'longitude'])`, which only
inspects the two coordinate columns. -/
structure NormRecord where
  ordem : Str
  linha : Option Str
  latitude : Dec
  longitude : Dec
  datahora : Option Int
  velocidade : Str
deriving DecidableEq

/-- Lines 279-290 of main4.py applied to one row: parse both coordinates
(after comma normalization) and shift the timestamp.  The row is dropped
(`none`) exactly when a coordinate fails to parse, because the `dropna` of
line 290 has subset `['latitude', 'longitude']`: a NaT `datahora` is kept. -/
def normalizeRecord (r : RawRecord) : Option NormRecord :=
  match parseCoord (normalizeCoord r.latitude), parseCoord (normalizeCoord r.longitude) with
  | some la, some lo => some ⟨r.ordem, r.linha, la, lo, shiftBRT r.datahora, r.velocidade⟩
  | _, _ => none

/-- Comparison realizing `sort_values(by='datahora', ascending=False)` of
main4.py line 293: timestamps descending, NaT placed last (the pandas
default `na_position='last'`). -/
def recencyLE (a b : NormRecord) : Bool :=
  match a.datahora, b.datahora with
  | some x, some y => decide (y ≤ x)
  | some _, none => true
  | none, some _ => false
  | none, none => true

/-- Propositional form of `recencyLE`. -/
def RecLE (a b : NormRecord) : Prop := recencyLE a b = true

instance : DecidableRel RecLE := fun a b => inferInstanceAs (Decidable (recencyLE a b = true))

instance : IsTotal NormRecord RecLE := by
  constructor
  intro a b
  unfold RecLE recencyLE
  rcases a.datahora with _ | x <;> rcases b.datahora with _ | y <;> simp
  exact Int.le_total y x

instance : IsTrans NormRecord RecLE := by
  constructor
  intro a b c
  unfold RecLE recencyLE
  rcases a.datahora with _ | x <;> rcases b.datahora with _ | y <;>
    rcases c.datahora with _ | z <;> simp
  exact fun h h' => le_trans h' h

/-- Recency sort of main4.py line 293.  Stable sort; pandas leaves the order
of equal keys unspecified, and no claim below depends on a tie. -/
def sortRecency (l : List NormRecord) : List NormRecord :=
  l.insertionSort RecLE

/-- Deduplication `drop_duplicates(subset=['ordem'], keep='first')` of
main4.py line 294: keep the first row of each `ordem` in the current row
order, accumulating the keys already seen. -/
def dedupGo (seen : List Str) : List NormRecord → List NormRecord
  | [] => []
  | r :: rs => if r.ordem ∈ seen then dedupGo seen rs else r :: dedupGo (r.ordem :: seen) rs

/-- Deduplication step of main4.py line 294. -/
def dedupByOrdem (l : List NormRecord) : List NormRecord := dedupGo [] l

/-- Lines 275-294 of main4.py composed: line filter, type treatment with the
coordinate validity drop, recency sort, deduplication by vehicle.  This is
the deduplicated frame the location filter and the display stage consume. -/
def dedupCore (linha_desejada : Str) (data : List RawRecord) : List NormRecord :=
  dedupByOrdem (sortRecency ((filterLine linha_desejada data).filterMap normalizeRecord))

/-- Row of the frame after the `distancia_km` column has been added
(main4.py lines 302-305 / 310-313). -/
structure DistRecord where
  base : NormRecord
  distancia_km : ℚ
deriving DecidableEq

/-- Column assignment `df_linha['distancia_km'] = haversine_distance(user_lat,
user_lon, df_linha['latitude'], df_linha['longitude'])` of main4.py lines
302-305 / 310-313, with the row-wise distance computation abstracted as the
oracle `dist`. -/
def annotateDist (dist : ℚ → ℚ → Dec → Dec → ℚ) (user_lat user_lon : ℚ)
    (l : List NormRecord) : List DistRecord :=
  l.map (fun r => ⟨r, dist user_lat user_lon r.latitude r.longitude⟩)

/-- Radius filter `df_linha[df_linha['distancia_km'] <= raio_km]` of main4.py
lines 306 / 314. -/
def filterRadius (raio_km : ℚ) (l : List DistRecord) : List DistRecord :=
  l.filter (fun r => decide (r.distancia_km ≤ raio_km))

/-- Ascending order on the `distancia_km` column, the key of the
`sort_values('distancia_km')` of main4.py line 379. -/
def DistLE (a b : DistRecord) : Prop := a.distancia_km ≤ b.distancia_km

instance : DecidableRel DistLE := fun a b =>
  inferInstanceAs (Decidable (a.distancia_km ≤ b.distancia_km))

instance : IsTotal DistRecord DistLE := ⟨fun a b => le_total a.distancia_km b.distancia_km⟩

instance : IsTrans DistRecord DistLE :=
  ⟨fun _ _ _ h h' => le_trans (α := ℚ) h h'⟩

/-- Sort `df_display.sort_values('distancia_km')` of main4.py line 379
(ascending, the pandas default). -/
def sortByDist (l : List DistRecord) : List DistRecord :=
  l.insertionSort DistLE

/-- Value of the `location_source` radio button (main4.py lines 146-153). -/
inductive LocSource where
  | browser
  | endereco
  | coords
deriving DecidableEq

/-- Stored outcome of the browser geolocation component, i.e. the
`st.session_state.geo_result` status consumed in main4.py lines 174-183. -/
inductive BrowserResult where
  | success (lat lon : ℚ)
  | error
  | pending
deriving DecidableEq

/-- Outcome of `geocode_address` as consumed in main4.py lines 210-229:
found coordinates, timeout, service error, not-found, or a blank address
input. -/
inductive GeocodeResult where
  | found (lat lon : ℚ)
  | timeout
  | serviceError
  | notFound
  | noInput
deriving DecidableEq

/-- Location method chosen in the sidebar, together with the outcome its
collaborator produced this cycle. -/
inductive LocMethod where
  | browser (r : BrowserResult)
  | endereco (r : GeocodeResult)
  | coords (lat lon : ℚ)
deriving DecidableEq

/-- Source selector of a location method. -/
def sourceOfMethod : LocMethod → LocSource
  | .browser _ => .browser
  | .endereco _ => .endereco
  | .coords _ _ => .coords

/-- Variables the sidebar logic leaves behind for the main pipeline
(main4.py lines 135-234): the proximity checkbox, the chosen source, whether
`st.session_state.geo_result` has status 'success', the
`localizacao_sucesso` flag, the reference coordinates and the radius. -/
structure Config where
  usar_localizacao : Bool
  location_source : LocSource
  geo_success : Bool
  localizacao_sucesso : Bool
  user_lat : ℚ
  user_lon : ℚ
  raio_km : ℚ

/-- Default reference latitude (Botafogo), main4.py line 139. -/
def defaultLat : ℚ := -22.9559

/-- Default reference longitude (Botafogo), main4.py line 139. -/
def defaultLon : ℚ := -43.1789

/-- Sidebar logic of main4.py lines 135-234: from the checkbox and the
location method's outcome compute the flags and reference point the main
pipeline reads.  When resolution fails (browser error or still pending,
geocoding timeout / service error / not-found / blank input) the flag
`localizacao_sucesso` becomes false and line 233 resets the reference to the
Botafogo default.  Choosing the manual-coordinates or address method resets
the stored browser result to 'pending' (lines 191 and 202), so
`geo_success` is false there. -/
def resolveSidebar (usar : Bool) (m : LocMethod) (raio_km : ℚ) : Config :=
  if usar then
    match m with
    | .browser (.success la lo) => ⟨true, .browser, true, true, la, lo, raio_km⟩
    | .browser .error => ⟨true, .browser, false, false, defaultLat, defaultLon, raio_km⟩
    | .browser .pending => ⟨true, .browser, false, false, defaultLat, defaultLon, raio_km⟩
    | .endereco (.found la lo) => ⟨true, .endereco, false, true, la, lo, raio_km⟩
    | .endereco _ => ⟨true, .endereco, false, false, defaultLat, defaultLon, raio_km⟩
    | .coords la lo => ⟨true, .coords, false, true, la, lo, raio_km⟩
  else
    ⟨false, sourceOfMethod m, false, true, defaultLat, defaultLon, raio_km⟩

/-- Observable outcome of one run of the script body (main4.py lines
261-389) on the fetched payload.

* `apiError`: the `st.error` branch of line 389, taken when `get_data`
  returned None or — Python truthiness of `if data:` — the empty list;
* `noLineData`: the warning of line 387 (no row matches the line query);
* `emptyArea`: the warning of line 385 (`df_filtrada` empty);
* `crashNaT`: the uncaught ValueError of lines 330-331 —
  `df_filtrada['datahora'].max()` is NaT when every remaining timestamp is
  NaT, and `NaT.strftime` raises;
* `crashMissingDist`: the uncaught exception of the display stage when
  `usar_localizacao` is true but `df_filtrada` carries no `distancia_km`
  column — the `hover_data` of lines 348-350 and the
  `sort_values('distancia_km')` of line 379 both reference the absent
  column;
* `shownDist` / `shownPlain`: the rendered `df_filtrada` rows, in the order
  the table of line 382 displays them. -/
inductive ProcResult where
  | apiError
  | noLineData
  | emptyArea
  | crashNaT
  | crashMissingDist
  | shownDist (rows : List DistRecord)
  | shownPlain (rows : List NormRecord)
deriving DecidableEq

/-- Display stage (main4.py lines 324-385) when `df_filtrada` carries a
`distancia_km` column: empty-area warning, the line 330 metric (which raises
when the column maximum is NaT, i.e. when every timestamp is NaT), then the
table sorted ascending by distance (line 379). -/
def renderDist (rows : List DistRecord) : ProcResult :=
  if rows = [] then .emptyArea
  else if rows.all (fun r => r.base.datahora.isNone) then .crashNaT
  else .shownDist (sortByDist rows)

/-- Display stage (main4.py lines 324-385) when `df_filtrada` has no
`distancia_km` column (the fallback branch of lines 316-321).  If
`usar_localizacao` is still true, lines 348-350 and 377-379 reference the
missing column and raise; otherwise the rows are rendered in their current
(recency) order. -/
def renderPlain (usar : Bool) (rows : List NormRecord) : ProcResult :=
  if rows = [] then .emptyArea
  else if rows.all (fun r => r.datahora.isNone) then .crashNaT
  else if usar then .crashMissingDist
  else .shownPlain rows

/-- Location filter stage of main4.py lines 297-321 followed by the display
stage: the first branch is line 300 (geocoded address or manual
coordinates, resolution succeeded), the second is line 308 (browser
location, stored status 'success'); the else branch is the fallback of
lines 316-321, which leaves `df_filtrada` without a `distancia_km`
column. -/
def locationStage (dist : ℚ → ℚ → Dec → Dec → ℚ) (cfg : Config)
    (df : List NormRecord) : ProcResult :=
  if cfg.usar_localizacao = true ∧ cfg.location_source ≠ LocSource.browser ∧
      cfg.localizacao_sucesso = true then
    renderDist (filterRadius cfg.raio_km (annotateDist dist cfg.user_lat cfg.user_lon df))
  else if cfg.usar_localizacao = true ∧ cfg.location_source = LocSource.browser ∧
      cfg.geo_success = true then
    renderDist (filterRadius cfg.raio_km (annotateDist dist cfg.user_lat cfg.user_lon df))
  else
    renderPlain cfg.usar_localizacao df

/-- Main pipeline of main4.py lines 270-389: from the fetched payload to the
rendered table.  `dist` abstracts the row-wise `haversine_distance`
application of lines 302-305 / 310-313 (its numeric content is settled
separately below; the control flow is oblivious to it).  `data = none`
models a failed fetch (`get_data` returned None). -/
def process (dist : ℚ → ℚ → Dec → Dec → ℚ) (linha_desejada : Str) (cfg : Config)
    (data : Option (List RawRecord)) : ProcResult :=
  match data with
  | none => .apiError
  | some l =>
    if l = [] then .apiError
    else if filterLine linha_desejada l = [] then .noLineData
    else locationStage dist cfg (dedupCore linha_desejada l)

/-- Trigonometric primitives the Haversine computation uses.  The Haversine
claim is an identity between two expressions in these primitives, so it is
stated over an arbitrary field equipped with them; numpy's float64 versions
are one instantiation. -/
structure Trig (α : Type) where
  sin : α → α
  cos : α → α
  sqrt : α → α
  arctan2 : α → α → α
  pi : α

/-- Degree-to-radian conversion `np.radians`. -/
def Trig.radians {α : Type} [Field α] (T : Trig α) (x : α) : α := x * T.pi / 180

/-- Function `haversine_distance` of main4.py lines 91-100, with the
source's variable names kept: note that `dphi` is computed from the
longitudes and `dlambda` from the latitudes — the swapped naming the spec's
section 9 open question describes. -/
def haversine_distance {α : Type} [Field α] (T : Trig α) (lat1 lon1 lat2 lon2 : α) : α :=
  let R : α := 6371
  let phi1 := T.radians lat1
  let phi2 := T.radians lat2
  let dphi := T.radians (lon2 - lon1)
  let dlambda := T.radians (lat2 - lat1)
  let a := T.sin (dlambda / 2) ^ 2 + T.cos phi1 * T.cos phi2 * T.sin (dphi / 2) ^ 2
  let c := 2 * T.arctan2 (T.sqrt a) (T.sqrt (1 - a))
  R * c

/-- Modelled from the spec: the reference Haversine definition of spec
section 4.1 — `a = sin²(radians(lat2−lat1)/2) + cos(radians(lat1)) ·
cos(radians(lat2)) · sin²(radians(lon2−lon1)/2)`, `c = 2 · atan2(√a,
√(1−a))`, `distance = 6371 · c`, both angular differences taken as (second
point − first point). -/
def haversineSpecRef {α : Type} [Field α] (T : Trig α) (lat1 lon1 lat2 lon2 : α) : α :=
  let dphi := T.radians (lat2 - lat1)
  let dlambda := T.radians (lon2 - lon1)
  let a := T.sin (dphi / 2) ^ 2 +
    T.cos (T.radians lat1) * T.cos (T.radians lat2) * T.sin (dlambda / 2) ^ 2
  let c := 2 * T.arctan2 (T.sqrt a) (T.sqrt (1 - a))
  6371 * c

/-- Comma-decimal rendition of a dot-decimal string: the locale variant the
feed may deliver, used to state locale insensitivity of the coordinate
normalization of main4.py lines 279-282. -/
def commaize (s : Str) : Str :=
  s.map (fun c => if c = '.' then ',' else c)

/-- Key test for the `ordem` column: rows whose vehicle identity is `v`. -/
def ordemIs (v : Str) (r : NormRecord) : Bool := decide (r.ordem = v)

/-! Helper lemmas about the embedded operations. -/

lemma normalizeRecord_fields {r : RawRecord} {n : NormRecord}
    (h : normalizeRecord r = some n) :
    n.ordem = r.ordem ∧ n.linha = r.linha ∧ n.datahora = shiftBRT r.datahora := by
  unfold normalizeRecord at h
  rcases hla : parseCoord (normalizeCoord r.latitude) with _ | la <;> rw [hla] at h
  · simp at h
  · rcases hlo : parseCoord (normalizeCoord r.longitude) with _ | lo <;> rw [hlo] at h
    · simp at h
    · simp only [Option.some.injEq] at h
      subst h
      exact ⟨rfl, rfl, rfl⟩

lemma normalizeRecord_eq_none_iff (r : RawRecord) :
    normalizeRecord r = none ↔
      parseCoord (normalizeCoord r.latitude) = none ∨
        parseCoord (normalizeCoord r.longitude) = none := by
  unfold normalizeRecord
  rcases parseCoord (normalizeCoord r.latitude) with _ | la <;>
    rcases parseCoord (normalizeCoord r.longitude) with _ | lo <;> simp

lemma dedupGo_sublist : ∀ (l : List NormRecord) (seen : List Str),
    List.Sublist (dedupGo seen l) l := by
  intro l
  induction l with
  | nil => intro seen; exact List.Sublist.refl _
  | cons r rs ih =>
    intro seen
    unfold dedupGo
    by_cases h : r.ordem ∈ seen
    · rw [if_pos h]
      exact (ih seen).cons r
    · rw [if_neg h]
      exact (ih _).cons₂ r

lemma dedupGo_filter_mem {v : Str} : ∀ (l : List NormRecord) (seen : List Str), v ∈ seen →
    (dedupGo seen l).filter (ordemIs v) = [] := by
  intro l
  induction l with
  | nil => intro seen _; rfl
  | cons r rs ih =>
    intro seen hv
    unfold dedupGo
    by_cases h : r.ordem ∈ seen
    · rw [if_pos h]
      exact ih seen hv
    · rw [if_neg h]
      have hrv : ordemIs v r = false := by
        unfold ordemIs
        simp only [decide_eq_false_iff_not]
        intro he
        exact h (he ▸ hv)
      rw [List.filter_cons_of_neg (by simp [hrv])]
      exact ih (r.ordem :: seen) (List.mem_cons_of_mem _ hv)

lemma dedupGo_filter_not_mem {v : Str} : ∀ (l : List NormRecord) (seen : List Str), v ∉ seen →
    (dedupGo seen l).filter (ordemIs v) = (l.filter (ordemIs v)).take 1 := by
  intro l
  induction l with
  | nil => intro seen _; rfl
  | cons r rs ih =>
    intro seen hv
    unfold dedupGo
    by_cases h : r.ordem ∈ seen
    · rw [if_pos h]
      have hrv : ordemIs v r = false := by
        unfold ordemIs
        simp only [decide_eq_false_iff_not]
        intro he
        exact hv (he ▸ h)
      rw [List.filter_cons_of_neg (by simp [hrv]), ih seen hv]
    · rw [if_neg h]
      by_cases hr : r.ordem = v
      · have hrv : ordemIs v r = true := by simp [ordemIs, hr]
        rw [List.filter_cons_of_pos (by simp [hrv]), List.filter_cons_of_pos (by simp [hrv])]
        rw [dedupGo_filter_mem rs (r.ordem :: seen) (by simp [hr])]
        simp
      · have hrv : ordemIs v r = false := by simp [ordemIs, hr]
        rw [List.filter_cons_of_neg (by simp [hrv]), List.filter_cons_of_neg (by simp [hrv])]
        exact ih (r.ordem :: seen) (by
          intro hmem
          rcases List.mem_cons.mp hmem with h1 | h2
          · exact hr h1.symm
          · exact hv h2)

lemma dedupByOrdem_filter (l : List NormRecord) (v : Str) :
    (dedupByOrdem l).filter (ordemIs v) = (l.filter (ordemIs v)).take 1 :=
  dedupGo_filter_not_mem l [] (by simp)

lemma dedupGo_nodup_aux : ∀ (l : List NormRecord) (seen : List Str),
    ((dedupGo seen l).map NormRecord.ordem).Nodup ∧
      ∀ x ∈ (dedupGo seen l).map NormRecord.ordem, x ∉ seen := by
  intro l
  induction l with
  | nil => intro seen; exact ⟨List.nodup_nil, by simp [dedupGo]⟩
  | cons r rs ih =>
    intro seen
    unfold dedupGo
    by_cases h : r.ordem ∈ seen
    · rw [if_pos h]
      exact ih seen
    · rw [if_neg h]
      rcases ih (r.ordem :: seen) with ⟨hnd, hout⟩
      constructor
      · rw [List.map_cons, List.nodup_cons]
        refine ⟨fun hmem => ?_, hnd⟩
        exact hout _ hmem (List.mem_cons_self _ _)
      · intro x hx
        rw [List.map_cons, List.mem_cons] at hx
        rcases hx with hx | hx
        · exact hx ▸ h
        · intro hxs
          exact hout x hx (List.mem_cons_of_mem _ hxs)

lemma dedupByOrdem_nodup (l : List NormRecord) :
    ((dedupByOrdem l).map NormRecord.ordem).Nodup :=
  (dedupGo_nodup_aux l []).1

lemma filter_filterMap_normalize (v : Str) : ∀ l : List RawRecord,
    (l.filterMap normalizeRecord).filter (ordemIs v) =
      (l.filter (fun r => decide (r.ordem = v))).filterMap normalizeRecord := by
  intro l
  induction l with
  | nil => rfl
  | cons r rs ih =>
    rw [List.filterMap_cons, List.filter_cons]
    rcases h : normalizeRecord r with _ | n
    · by_cases hr : r.ordem = v
      · rw [if_pos (by simp [hr]), List.filterMap_cons, h, ih]
      · rw [if_neg (by simp [hr]), ih]
    · have hord : n.ordem = r.ordem := (normalizeRecord_fields h).1
      rw [List.filter_cons]
      by_cases hr : r.ordem = v
      · rw [if_pos (by simp [ordemIs, hord, hr]), if_pos (by simp [hr]),
          List.filterMap_cons, h, ih]
      · rw [if_neg (by simp [ordemIs, hord, hr]), if_neg (by simp [hr]), ih]

lemma mem_dedupCore {q : Str} {data : List RawRecord} {n : NormRecord}
    (h : n ∈ dedupCore q data) :
    ∃ raw, raw ∈ data ∧ lineMatches q raw = true ∧ normalizeRecord raw = some n := by
  unfold dedupCore dedupByOrdem at h
  have h1 : n ∈ sortRecency ((filterLine q data).filterMap normalizeRecord) :=
    (dedupGo_sublist _ _).subset h
  have h2 : n ∈ (filterLine q data).filterMap normalizeRecord :=
    (List.perm_insertionSort RecLE _).subset h1
  rcases List.mem_filterMap.mp h2 with ⟨raw, hrawmem, hraw⟩
  rcases List.mem_filter.mp hrawmem with ⟨hd, hm⟩
  exact ⟨raw, hd, hm, hraw⟩

lemma sortRecency_sorted (l : List NormRecord) : (sortRecency l).Pairwise RecLE :=
  List.sorted_insertionSort RecLE l

lemma dedupCore_pairwise (q : Str) (data : List RawRecord) :
    (dedupCore q data).Pairwise RecLE :=
  (sortRecency_sorted _).sublist (dedupGo_sublist _ _)

lemma recencyLE_refl (a : NormRecord) : recencyLE a a = true := by
  unfold recencyLE
  rcases a.datahora with _ | x <;> simp

lemma perm_pair_cases {α : Type} {a b : α} {l : List α} (h : l.Perm [a, b]) :
    l = [a, b] ∨ l = [b, a] := by
  have hlen := h.length_eq
  rcases l with _ | ⟨x, _ | ⟨y, _ | ⟨z, t⟩⟩⟩ <;> simp at hlen
  have hx : x ∈ ([a, b] : List α) := h.subset (List.mem_cons_self _ _)
  rcases List.mem_cons.mp hx with hxa | hxb
  · subst hxa
    have h2 := h.cons_inv
    have h3 : y = b := by simpa using List.perm_singleton.mp h2
    subst h3
    exact Or.inl rfl
  · have hxb' : x = b := by simpa using hxb
    subst hxb'
    have hswap : ([a, x] : List α).Perm [x, a] := List.Perm.swap x a []
    have h2 := (h.trans hswap).cons_inv
    have h3 : y = a := by simpa using List.perm_singleton.mp h2
    subst h3
    exact Or.inr rfl

lemma filter_comm' {α : Type} (p p' : α → Bool) (l : List α) :
    (l.filter p).filter p' = (l.filter p').filter p := by
  induction l with
  | nil => rfl
  | cons a l ih =>
    rw [List.filter_cons, List.filter_cons]
    by_cases hp : p a <;> by_cases hp' : p' a <;>
      simp [List.filter_cons, hp, hp', ih]

lemma take_one_eq_nil_iff {α : Type} (l : List α) : l.take 1 = [] ↔ l = [] := by
  cases l <;> simp

lemma mem_take_one {α : Type} {x : α} {l : List α} (h : x ∈ l.take 1) :
    ∃ l', l = x :: l' := by
  cases l with
  | nil => simp at h
  | cons a l' =>
    simp at h
    exact ⟨l', by rw [h]⟩

lemma perm_eq_nil_iff {α : Type} {S T : List α} (h : S.Perm T) : S = [] ↔ T = [] := by
  constructor <;> intro he <;> subst he
  · exact (List.perm_nil.mp h.symm).symm ▸ rfl
  · exact List.perm_nil.mp h

lemma renderDist_ne_shownPlain (l : List DistRecord) (rows : List NormRecord) :
    renderDist l ≠ ProcResult.shownPlain rows := by
  unfold renderDist
  split
  · simp
  · split <;> simp

lemma renderPlain_ne_shownDist (usar : Bool) (l : List NormRecord) (rows : List DistRecord) :
    renderPlain usar l ≠ ProcResult.shownDist rows := by
  unfold renderPlain
  split
  · simp
  · split
    · simp
    · split <;> simp

lemma renderDist_shownDist {l rows : List DistRecord}
    (h : renderDist l = ProcResult.shownDist rows) : rows = sortByDist l := by
  unfold renderDist at h
  split at h
  · simp at h
  · split at h
    · simp at h
    · injection h with h'
      exact h'.symm

lemma renderPlain_shownPlain {usar : Bool} {l rows : List NormRecord}
    (h : renderPlain usar l = ProcResult.shownPlain rows) :
    rows = l ∧ usar = false := by
  unfold renderPlain at h
  split at h
  · simp at h
  · split at h
    · simp at h
    · split at h
      · simp at h
      · rename_i husar
        injection h with h'
        exact ⟨h'.symm, by simpa using husar⟩

lemma locationStage_shownDist {dist : ℚ → ℚ → Dec → Dec → ℚ} {cfg : Config}
    {df : List NormRecord} {rows : List DistRecord}
    (h : locationStage dist cfg df = ProcResult.shownDist rows) :
    rows = sortByDist (filterRadius cfg.raio_km
      (annotateDist dist cfg.user_lat cfg.user_lon df)) := by
  unfold locationStage at h
  split at h
  · exact renderDist_shownDist h
  · split at h
    · exact renderDist_shownDist h
    · exact absurd h (renderPlain_ne_shownDist _ _ _)

lemma locationStage_shownPlain {dist : ℚ → ℚ → Dec → Dec → ℚ} {cfg : Config}
    {df : List NormRecord} {rows : List NormRecord}
    (h : locationStage dist cfg df = ProcResult.shownPlain rows) :
    rows = df ∧ cfg.usar_localizacao = false := by
  unfold locationStage at h
  split at h
  · exact absurd h (renderDist_ne_shownPlain _ _)
  · split at h
    · exact absurd h (renderDist_ne_shownPlain _ _)
    · exact renderPlain_shownPlain h

lemma process_some (dist : ℚ → ℚ → Dec → Dec → ℚ) (q : Str) (cfg : Config)
    (l : List RawRecord) :
    process dist q cfg (some l) =
      if l = [] then ProcResult.apiError
      else if filterLine q l = [] then ProcResult.noLineData
      else locationStage dist cfg (dedupCore q l) := rfl

lemma process_shownDist_inv {dist : ℚ → ℚ → Dec → Dec → ℚ} {q : Str} {cfg : Config}
    {data : Option (List RawRecord)} {rows : List DistRecord}
    (h : process dist q cfg data = ProcResult.shownDist rows) :
    ∃ l, data = some l ∧
      rows = sortByDist (filterRadius cfg.raio_km
        (annotateDist dist cfg.user_lat cfg.user_lon (dedupCore q l))) := by
  cases data with
  | none => simp [process] at h
  | some l =>
    refine ⟨l, rfl, ?_⟩
    rw [process_some] at h
    split at h
    · simp at h
    · split at h
      · simp at h
      · exact locationStage_shownDist h

lemma process_shownPlain_inv {dist : ℚ → ℚ → Dec → Dec → ℚ} {q : Str} {cfg : Config}
    {data : Option (List RawRecord)} {rows : List NormRecord}
    (h : process dist q cfg data = ProcResult.shownPlain rows) :
    ∃ l, data = some l ∧ rows = dedupCore q l ∧ cfg.usar_localizacao = false := by
  cases data with
  | none => simp [process] at h
  | some l =>
    refine ⟨l, rfl, ?_⟩
    rw [process_some] at h
    split at h
    · simp at h
    · split at h
      · simp at h
      · exact locationStage_shownPlain h

lemma annotateDist_map_base (dist : ℚ → ℚ → Dec → Dec → ℚ) (u w : ℚ) :
    ∀ l : List NormRecord, (annotateDist dist u w l).map DistRecord.base = l := by
  intro l
  induction l with
  | nil => rfl
  | cons r rs ih =>
    unfold annotateDist at *
    simp only [List.map_cons]
    rw [ih]

lemma annotateDist_map_base_ordem (dist : ℚ → ℚ → Dec → Dec → ℚ) (u w : ℚ) :
    ∀ l : List NormRecord,
      (annotateDist dist u w l).map (fun d => d.base.ordem) = l.map NormRecord.ordem := by
  intro l
  induction l with
  | nil => rfl
  | cons r rs ih =>
    unfold annotateDist at *
    simp only [List.map_cons]
    rw [ih]

lemma mem_annotateDist_base {dist : ℚ → ℚ → Dec → Dec → ℚ} {u w : ℚ} {l : List NormRecord}
    {d : DistRecord} (h : d ∈ annotateDist dist u w l) : d.base ∈ l := by
  unfold annotateDist at h
  rcases List.mem_map.mp h with ⟨r, hr, hd⟩
  rw [← hd]
  exact hr

lemma shownDist_mem_dedupCore {dist : ℚ → ℚ → Dec → Dec → ℚ} {q : Str} {cfg : Config}
    {data : Option (List RawRecord)} {rows : List DistRecord}
    (h : process dist q cfg data = ProcResult.shownDist rows) {d : DistRecord}
    (hd : d ∈ rows) : ∃ l, data = some l ∧ d.base ∈ dedupCore q l := by
  rcases process_shownDist_inv h with ⟨l, hdata, hrows⟩
  subst hrows
  have h1 : d ∈ filterRadius cfg.raio_km
      (annotateDist dist cfg.user_lat cfg.user_lon (dedupCore q l)) :=
    (List.perm_insertionSort DistLE _).subset hd
  have h2 := List.mem_of_mem_filter h1
  exact ⟨l, hdata, mem_annotateDist_base h2⟩

lemma dedupCore_filter_key (q : Str) (data : List RawRecord) (v : Str) :
    (dedupCore q data).filter (ordemIs v) =
      ((sortRecency ((filterLine q data).filterMap normalizeRecord)).filter
        (ordemIs v)).take 1 := by
  unfold dedupCore
  exact dedupByOrdem_filter _ v

lemma sorted_filter_perm (q : Str) (data : List RawRecord) (v : Str) :
    ((sortRecency ((filterLine q data).filterMap normalizeRecord)).filter (ordemIs v)).Perm
      (((filterLine q data).filterMap normalizeRecord).filter (ordemIs v)) :=
  (List.perm_insertionSort RecLE _).filter _

lemma sorted_filter_pairwise (q : Str) (data : List RawRecord) (v : Str) :
    ((sortRecency ((filterLine q data).filterMap normalizeRecord)).filter
      (ordemIs v)).Pairwise RecLE :=
  (sortRecency_sorted _).sublist (List.filter_sublist _)

lemma normalizeCoord_commaize : ∀ {t : Str}, ',' ∉ t → normalizeCoord (commaize t) = t := by
  intro t
  induction t with
  | nil => intro _; rfl
  | cons c cs ih =>
    intro hc
    have hc' : ',' ∉ cs := fun h => hc (List.mem_cons_of_mem _ h)
    have hcc : c ≠ ',' := fun h => hc (h ▸ List.mem_cons_self _ _)
    unfold normalizeCoord commaize at ih ⊢
    simp only [List.map_cons, List.cons.injEq]
    refine ⟨?_, ih hc'⟩
    by_cases h : c = '.'
    · simp [h]
    · simp [h, hcc]

/-! Concrete sample data instantiating the claims. -/

/-- Distance oracle constantly 100 km: the order of magnitude the row-wise
Haversine takes at points far from the reference (compare the spec's
section 8 example of a record about 12 km away). -/
def dist100 : ℚ → ℚ → Dec → Dec → ℚ := fun _ _ _ _ => 100

/-- Distance oracle constantly 1 km: a record within the search radius. -/
def dist1 : ℚ → ℚ → Dec → Dec → ℚ := fun _ _ _ _ => 1

/-- Sample line query "112" (the sidebar default of main4.py line 135). -/
def q112 : Str := ['1', '1', '2']

/-- Configuration with the proximity checkbox off. -/
def cfgOff : Config := resolveSidebar false (LocMethod.coords 0 0) 2

/-- Configuration with proximity filtering via successfully entered manual
coordinates, radius 2 km. -/
def cfgCoords : Config := resolveSidebar true (LocMethod.coords 0 0) 2

/-- Configuration with proximity filtering requested via a geocoded address
that was not found: resolution failed, `localizacao_sucesso` is false. -/
def cfgGeoFail : Config := resolveSidebar true (LocMethod.endereco GeocodeResult.notFound) 2

/-- Vehicle A, older sighting: timestamp 1000 ms. -/
def recA1 : RawRecord :=
  ⟨['A'], some ['1', '1', '2'], ['-', '2', '2'], ['-', '4', '3'], some 1000, ['1', '0']⟩

/-- Vehicle A, most recent sighting: timestamp 2000 ms. -/
def recA2 : RawRecord :=
  ⟨['A'], some ['1', '1', '2'], ['-', '2', '3'], ['-', '4', '4'], some 2000, ['2', '0']⟩

/-- Vehicle B: fully valid record. -/
def recB : RawRecord :=
  ⟨['B'], some ['1', '1', '2'], ['-', '2', '2'], ['-', '4', '3'], some 1700000000000,
    ['3', '0']⟩

/-- Vehicle N: unparsable raw timestamp (NaT) but parsable coordinates. -/
def recNaT : RawRecord :=
  ⟨['N'], some ['1', '1', '2'], ['-', '2', '2'], ['-', '4', '3'], none, ['4', '0']⟩

/-- Vehicle C: `linha` field missing from the feed object. -/
def recNull : RawRecord :=
  ⟨['C'], none, ['-', '2', '2'], ['-', '4', '3'], some 5000, ['5', '0']⟩

/-- Vehicle D: unparsable latitude string "abc". -/
def recBadLat : RawRecord :=
  ⟨['D'], some ['1', '1', '2'], ['a', 'b', 'c'], ['-', '4', '3'], some 1000, ['6', '0']⟩

/-! Claims. -/

/-- Claim C6: for all inputs, the implemented `haversine_distance` equals
the spec's reference Haversine with Earth radius 6371 km and both angular
differences computed as (second point − first point); the swapped
`dphi`/`dlambda` variable naming in the code does not change the computed
value. -/
theorem C6_haversine_matches_spec {α : Type} [Field α] (T : Trig α)
    (lat1 lon1 lat2 lon2 : α) :
    haversine_distance T lat1 lon1 lat2 lon2 = haversineSpecRef T lat1 lon1 lat2 lon2 := rfl

/-- Claim C8: coordinate normalization is locale-insensitive — for every
dot-decimal string `t` free of commas, the comma-separated variant of `t`,
normalized by the pipeline's comma-to-dot replacement, is literally `t`
again, so parsing it yields exactly the same value as parsing `t`
directly. -/
theorem C8_comma_locale_insensitive (t : Str) (hc : ',' ∉ t) :
    normalizeCoord (commaize t) = t ∧
      parseCoord (normalizeCoord (commaize t)) = parseCoord t := by
  refine ⟨normalizeCoord_commaize hc, ?_⟩
  rw [normalizeCoord_commaize hc]

/-- Witness for C8 at the spec's example: "-22,95" normalizes and parses to
exactly the parse of "-22.95". -/
theorem C8_witness :
    parseCoord (normalizeCoord ['-', '2', '2', ',', '9', '5']) =
      parseCoord ['-', '2', '2', '.', '9', '5'] :=
  (C8_comma_locale_insensitive ['-', '2', '2', '.', '9', '5'] (by decide)).2

/-- Counterexample to claim C2 as stated: the empty raw feed list is routed
to the same `st.error` branch (main4.py line 389) as a failed fetch — the
Python truthiness test `if data:` treats `[]` as falsy — instead of being
handled as a normal empty result. -/
theorem C2_counterexample :
    process dist100 q112 cfgOff (some []) = ProcResult.apiError ∧
      process dist100 q112 cfgOff none = ProcResult.apiError := by
  exact ⟨rfl, rfl⟩

/-- Claim C2 (amended): an empty raw feed list raises no exception and no
records are rendered, but — via Python truthiness of `if data:` (main4.py
line 270) — it takes the same error branch as a failed fetch, for every
distance oracle, line query and configuration. -/
theorem C2_empty_feed_error_branch (dist : ℚ → ℚ → Dec → Dec → ℚ) (q : Str)
    (cfg : Config) :
    process dist q cfg (some []) = ProcResult.apiError := rfl

/-- Claim C3 is violated by the code: with proximity filtering requested and
reference-point resolution failed (here geocoding not-found), a non-empty
deduplicated result set is NOT rendered — the display stage references the
`distancia_km` column that the fallback branch of main4.py lines 316-321
never created (the hover_data of lines 348-350 and the sort of line 379),
raising an uncaught exception instead of showing the unfiltered set. -/
theorem C3_fallback_crash :
    process dist100 q112 cfgGeoFail (some [recB]) = ProcResult.crashMissingDist := by
  decide

/-- Counterexample to claim C4: a record whose raw timestamp is unparsable
(NaT) but whose coordinates parse is NOT discarded — the validity drop of
main4.py line 290 covers only the coordinate columns — and it reaches the
rendered output, after the valid-timestamp rows. -/
theorem C4_counterexample :
    recNaT.datahora = none ∧
      process dist100 q112 cfgOff (some [recNaT, recB]) =
        ProcResult.shownPlain
          [⟨['B'], some ['1', '1', '2'], ⟨-22, 0⟩, ⟨-43, 0⟩, some 1699989200000, ['3', '0']⟩,
            ⟨['N'], some ['1', '1', '2'], ⟨-22, 0⟩, ⟨-43, 0⟩, none, ['4', '0']⟩] := by
  decide

/-- Claim C4 (amended): the validity drop of main4.py line 290 discards
exactly the records with an unparsable coordinate; a record whose raw
timestamp is unparsable is kept, carrying a null (NaT) timestamp. -/
theorem C4_validity_drop_is_coordinate_only (r : RawRecord) :
    (normalizeRecord r = none ↔
      parseCoord (normalizeCoord r.latitude) = none ∨
        parseCoord (normalizeCoord r.longitude) = none) ∧
    ∀ n : NormRecord, normalizeRecord r = some n → n.datahora = shiftBRT r.datahora :=
  ⟨normalizeRecord_eq_none_iff r, fun _ h => (normalizeRecord_fields h).2.2⟩

/-- Witness for C4 (amended): the record with latitude "abc" is dropped by
the validity step. -/
theorem C4_witness : normalizeRecord recBadLat = none :=
  (C4_validity_drop_is_coordinate_only recBadLat).1.mpr (Or.inl (by decide))

/-- Counterexample to claim C10: a record whose `linha` field is missing is
NOT always treated as non-matching — `astype(str)` renders the missing
value as the string "nan" before `str.contains` runs, so for the query "n"
the record passes the line filter and reaches the rendered output. -/
theorem C10_counterexample :
    recNull.linha = none ∧
      process dist100 ['n'] cfgOff (some [recNull]) =
        ProcResult.shownPlain
          [⟨['C'], none, ⟨-22, 0⟩, ⟨-43, 0⟩, some (-10795000), ['5', '0']⟩] := by
  decide

/-- Claim C10 (amended): a record with a missing/null `linha` is stringified
to "nan" by the `astype(str)` of main4.py line 275, so the line filter keeps
it exactly when the query is a substring of "nan"; no error is raised either
way (the `na=False` argument is moot after stringification). -/
theorem C10_missing_linha_matches_nan (q : Str) (r : RawRecord) (data : List RawRecord)
    (hmem : r ∈ data) (hlinha : r.linha = none) :
    r ∈ filterLine q data ↔ q <:+: ['n', 'a', 'n'] := by
  unfold filterLine
  rw [List.mem_filter]
  unfold lineMatches
  rw [hlinha]
  simp [linhaStr, hmem]

/-- Witness for C10 (amended): the missing-`linha` record passes the filter
for the query "n". -/
theorem C10_witness : recNull ∈ filterLine ['n'] [recNull] :=
  (C10_missing_linha_matches_nan ['n'] recNull [recNull] (by simp) rfl).mpr (by decide)

/-- Counterexample to claim C7: for the query "nan", a record whose `linha`
field is missing (so its line identifier contains nothing, let alone the
query) passes the line filter — `astype(str)` renders the missing value as
the literal string "nan" — and reaches the rendered output. -/
theorem C7_counterexample :
    recNull.linha = none ∧
      process dist100 ['n', 'a', 'n'] cfgOff (some [recNull]) =
        ProcResult.shownPlain
          [⟨['C'], none, ⟨-22, 0⟩, ⟨-43, 0⟩, some (-10795000), ['5', '0']⟩] := by
  decide

/-- Claim C7 (amended): every rendered record's stringified `linha`
(missing values rendered "nan") contains the query as a literal substring,
and every raw record whose stringified `linha` does not contain the query
is dropped by the line filter, silently. -/
theorem C7_output_matches_query :
    (∀ (dist : ℚ → ℚ → Dec → Dec → ℚ) (q : Str) (cfg : Config)
        (data : Option (List RawRecord)) (rows : List NormRecord),
      process dist q cfg data = ProcResult.shownPlain rows →
        ∀ n ∈ rows, q <:+: linhaStr n.linha) ∧
    (∀ (dist : ℚ → ℚ → Dec → Dec → ℚ) (q : Str) (cfg : Config)
        (data : Option (List RawRecord)) (rows : List DistRecord),
      process dist q cfg data = ProcResult.shownDist rows →
        ∀ d ∈ rows, q <:+: linhaStr d.base.linha) ∧
    (∀ (q : Str) (data : List RawRecord) (r : RawRecord),
      r ∈ data → lineMatches q r = false → r ∉ filterLine q data) := by
  refine ⟨?_, ?_, ?_⟩
  · intro dist q cfg data rows h n hn
    rcases process_shownPlain_inv h with ⟨l, _, hrows, _⟩
    subst hrows
    rcases mem_dedupCore hn with ⟨raw, _, hm, hnorm⟩
    rw [(normalizeRecord_fields hnorm).2.1]
    simpa [lineMatches] using hm
  · intro dist q cfg data rows h d hd
    rcases shownDist_mem_dedupCore h hd with ⟨l, _, hbase⟩
    rcases mem_dedupCore hbase with ⟨raw, _, hm, hnorm⟩
    rw [(normalizeRecord_fields hnorm).2.1]
    simpa [lineMatches] using hm
  · intro q data r _ hm hmemf
    unfold filterLine at hmemf
    have h2 := (List.mem_filter.mp hmemf).2
    rw [hm] at h2
    simp at h2

/-- Witness for C7 (amended): in a concrete run the rendered record's
`linha` contains the query "112". -/
theorem C7_witness :
    q112 <:+: linhaStr
      (⟨['B'], some ['1', '1', '2'], ⟨-22, 0⟩, ⟨-43, 0⟩, some 1699989200000,
        ['3', '0']⟩ : NormRecord).linha :=
  C7_output_matches_query.1 dist100 q112 cfgOff (some [recB])
    [⟨['B'], some ['1', '1', '2'], ⟨-22, 0⟩, ⟨-43, 0⟩, some 1699989200000, ['3', '0']⟩]
    (by decide) _ (by simp)

/-- Claim C5: final ordering — a result set rendered with a distance column
is ascending by `distancia_km`; one rendered without a distance column (no
reference point used) is in the recency order (timestamp descending, NaT
last) established before deduplication. -/
theorem C5_final_ordering :
    (∀ (dist : ℚ → ℚ → Dec → Dec → ℚ) (q : Str) (cfg : Config)
        (data : Option (List RawRecord)) (rows : List DistRecord),
      process dist q cfg data = ProcResult.shownDist rows → rows.Pairwise DistLE) ∧
    (∀ (dist : ℚ → ℚ → Dec → Dec → ℚ) (q : Str) (cfg : Config)
        (data : Option (List RawRecord)) (rows : List NormRecord),
      process dist q cfg data = ProcResult.shownPlain rows → rows.Pairwise RecLE) := by
  constructor
  · intro dist q cfg data rows h
    rcases process_shownDist_inv h with ⟨l, _, hrows⟩
    subst hrows
    exact List.sorted_insertionSort DistLE _
  · intro dist q cfg data rows h
    rcases process_shownPlain_inv h with ⟨l, _, hrows, _⟩
    subst hrows
    exact dedupCore_pairwise q l

/-- Witness for C5 at a concrete run ending in a distance-sorted table. -/
theorem C5_witness :
    ([⟨⟨['B'], some ['1', '1', '2'], ⟨-22, 0⟩, ⟨-43, 0⟩, some 1699989200000, ['3', '0']⟩,
      1⟩] : List DistRecord).Pairwise DistLE :=
  C5_final_ordering.1 dist1 q112 cfgCoords (some [recB]) _ (by decide)

/-- Claim C9: the coordinate validity drop happens before deduplication —
a vehicle is entirely absent from the deduplicated frame exactly when all
of its line-matching records have unparsable coordinates, and when it is
present, its row is the normalization of one of its line-matching raw
records and is at least as recent as every other surviving record of that
vehicle. -/
theorem C9_coordinate_drop_before_dedup (q : Str) (data : List RawRecord) (v : Str) :
    ((dedupCore q data).filter (ordemIs v) = [] ↔
      ∀ raw ∈ data, lineMatches q raw = true → raw.ordem = v →
        normalizeRecord raw = none) ∧
    ∀ r ∈ dedupCore q data, r.ordem = v →
      ∃ raw, raw ∈ data ∧ lineMatches q raw = true ∧ raw.ordem = v ∧
        normalizeRecord raw = some r ∧
        ∀ raw', raw' ∈ data → lineMatches q raw' = true → raw'.ordem = v →
          ∀ r', normalizeRecord raw' = some r' → recencyLE r r' = true := by
  constructor
  · rw [dedupCore_filter_key, take_one_eq_nil_iff,
      perm_eq_nil_iff (sorted_filter_perm q data v), filter_filterMap_normalize,
      List.filterMap_eq_nil_iff]
    constructor
    · intro hall raw hrawd hm hv
      refine hall raw (List.mem_filter.mpr ⟨?_, by simp [hv]⟩)
      unfold filterLine
      exact List.mem_filter.mpr ⟨hrawd, hm⟩
    · intro hall raw hrawmem
      have h1 := List.mem_filter.mp hrawmem
      have h2 := List.mem_filter.mp (by unfold filterLine at h1; exact h1.1)
      exact hall raw h2.1 h2.2 (of_decide_eq_true h1.2)
  · intro r hr hv
    have hkey : ordemIs v r = true := by simp [ordemIs, hv]
    have hmemf : r ∈ (dedupCore q data).filter (ordemIs v) := List.mem_filter.mpr ⟨hr, hkey⟩
    rw [dedupCore_filter_key] at hmemf
    rcases mem_take_one hmemf with ⟨S', hS⟩
    have hpw := sorted_filter_pairwise q data v
    rw [hS] at hpw
    have hhead : ∀ x ∈ S', RecLE r x := (List.pairwise_cons.mp hpw).1
    have hrS : r ∈ (sortRecency ((filterLine q data).filterMap normalizeRecord)).filter
        (ordemIs v) := by
      rw [hS]
      exact List.mem_cons_self _ _
    have hr_parsed : r ∈ (filterLine q data).filterMap normalizeRecord :=
      (List.perm_insertionSort RecLE _).subset (List.mem_of_mem_filter hrS)
    rcases List.mem_filterMap.mp hr_parsed with ⟨raw, hrawf, hnorm⟩
    have hrawf' := List.mem_filter.mp (by unfold filterLine at hrawf; exact hrawf)
    have hrawv : raw.ordem = v := by
      rw [← (normalizeRecord_fields hnorm).1]
      exact hv
    refine ⟨raw, hrawf'.1, hrawf'.2, hrawv, hnorm, ?_⟩
    intro raw' hraw'd hm' hv' r' hnorm'
    have hr'key : ordemIs v r' = true := by
      simp [ordemIs, (normalizeRecord_fields hnorm').1, hv']
    have hr'parsed : r' ∈ (filterLine q data).filterMap normalizeRecord := by
      refine List.mem_filterMap.mpr ⟨raw', ?_, hnorm'⟩
      unfold filterLine
      exact List.mem_filter.mpr ⟨hraw'd, hm'⟩
    have hr'S : r' ∈ (sortRecency ((filterLine q data).filterMap normalizeRecord)).filter
        (ordemIs v) :=
      (sorted_filter_perm q data v).symm.subset (List.mem_filter.mpr ⟨hr'parsed, hr'key⟩)
    rw [hS] at hr'S
    rcases List.mem_cons.mp hr'S with he | hmem
    · rw [he]
      exact recencyLE_refl r
    · exact hhead r' hmem

/-- Witness for C9 at a concrete input: the vehicle whose only line-matching
record has latitude "abc" is entirely absent from the deduplicated frame. -/
theorem C9_witness :
    (dedupCore q112 [recBadLat]).filter (ordemIs ['D']) = [] :=
  (C9_coordinate_drop_before_dedup q112 [recBadLat] ['D']).1.mpr (by decide)

/-- Counterexample to claim C1 as stated: with a reference point supplied
(manual coordinates, radius 2 km) and the row-wise distance evaluating to
100 km, the two-record scenario — same vehicle, timestamps 1000 < 2000,
both matching the query with valid coordinates — produces an output with
NO record for that vehicle (the radius filter removed its surviving row),
not exactly one. -/
theorem C1_counterexample :
    recA1.ordem = recA2.ordem ∧ recA1.datahora = some 1000 ∧
      recA2.datahora = some 2000 ∧ lineMatches q112 recA1 = true ∧
      lineMatches q112 recA2 = true ∧ (normalizeRecord recA1).isSome = true ∧
      (normalizeRecord recA2).isSome = true ∧
      process dist100 q112 cfgCoords (some [recA1, recA2]) = ProcResult.emptyArea := by
  decide

/-- Claim C1 (amended): the rendered output always carries at most one row
per distinct `ordem`; and in the two-record scenario (same vehicle,
timestamps t1 < t2, both records matching the line query with valid
coordinates) with no reference point in use, the output carries exactly one
row for that vehicle, namely the normalization of the t2 record. -/
theorem C1_one_row_per_vehicle :
    (∀ (dist : ℚ → ℚ → Dec → Dec → ℚ) (q : Str) (cfg : Config)
        (data : Option (List RawRecord)) (rows : List DistRecord),
      process dist q cfg data = ProcResult.shownDist rows →
        (rows.map (fun d => d.base.ordem)).Nodup) ∧
    (∀ (dist : ℚ → ℚ → Dec → Dec → ℚ) (q : Str) (cfg : Config)
        (data : Option (List RawRecord)) (rows : List NormRecord),
      process dist q cfg data = ProcResult.shownPlain rows →
        (rows.map NormRecord.ordem).Nodup) ∧
    (∀ (dist : ℚ → ℚ → Dec → Dec → ℚ) (q : Str) (cfg : Config)
        (data : List RawRecord) (v : Str) (r1 r2 : RawRecord) (n1 n2 : NormRecord)
        (t1 t2 : Int),
      cfg.usar_localizacao = false →
      data.filter (fun r => decide (r.ordem = v)) = [r1, r2] →
      lineMatches q r1 = true → lineMatches q r2 = true →
      normalizeRecord r1 = some n1 → normalizeRecord r2 = some n2 →
      r1.datahora = some t1 → r2.datahora = some t2 → t1 < t2 →
      ∃ rows, process dist q cfg (some data) = ProcResult.shownPlain rows ∧
        rows.filter (ordemIs v) = [n2] ∧ n2.datahora = some (t2 - brtShiftMs)) := by
  refine ⟨?_, ?_, ?_⟩
  · intro dist q cfg data rows h
    rcases process_shownDist_inv h with ⟨l, _, hrows⟩
    subst hrows
    have hnd : ((dedupCore q l).map NormRecord.ordem).Nodup := by
      unfold dedupCore
      exact dedupByOrdem_nodup _
    have hann : ((annotateDist dist cfg.user_lat cfg.user_lon (dedupCore q l)).map
        (fun d => d.base.ordem)).Nodup := by
      rw [annotateDist_map_base_ordem]
      exact hnd
    have hfil : ((filterRadius cfg.raio_km (annotateDist dist cfg.user_lat cfg.user_lon
        (dedupCore q l))).map (fun d => d.base.ordem)).Nodup :=
      hann.sublist ((List.filter_sublist _).map _)
    exact ((List.perm_insertionSort DistLE _).map _).nodup_iff.mpr hfil
  · intro dist q cfg data rows h
    rcases process_shownPlain_inv h with ⟨l, _, hrows, _⟩
    subst hrows
    unfold dedupCore
    exact dedupByOrdem_nodup _
  · intro dist q cfg data v r1 r2 n1 n2 t1 t2 husar hfilter hm1 hm2 hn1 hn2 ht1 ht2 hlt
    have hr1f : r1 ∈ data.filter (fun r => decide (r.ordem = v)) := by
      rw [hfilter]
      simp
    have hr2f : r2 ∈ data.filter (fun r => decide (r.ordem = v)) := by
      rw [hfilter]
      simp
    have hr1d : r1 ∈ data := List.mem_of_mem_filter hr1f
    have hd1 : n1.datahora = some (t1 - brtShiftMs) := by
      rw [(normalizeRecord_fields hn1).2.2, ht1]
      rfl
    have hd2 : n2.datahora = some (t2 - brtShiftMs) := by
      rw [(normalizeRecord_fields hn2).2.2, ht2]
      rfl
    have hA : (filterLine q data).filter (fun r => decide (r.ordem = v)) = [r1, r2] := by
      unfold filterLine
      rw [filter_comm', hfilter]
      simp [List.filter_cons, hm1, hm2]
    have hB : ((filterLine q data).filterMap normalizeRecord).filter (ordemIs v) =
        [n1, n2] := by
      rw [filter_filterMap_normalize, hA]
      simp [List.filterMap_cons, hn1, hn2]
    have hperm : ((sortRecency ((filterLine q data).filterMap normalizeRecord)).filter
        (ordemIs v)).Perm [n1, n2] := by
      rw [← hB]
      exact sorted_filter_perm q data v
    have hS : (sortRecency ((filterLine q data).filterMap normalizeRecord)).filter
        (ordemIs v) = [n2, n1] := by
      rcases perm_pair_cases hperm with h | h
      · exfalso
        have hpw := sorted_filter_pairwise q data v
        rw [h] at hpw
        have h12 : RecLE n1 n2 := (List.pairwise_cons.mp hpw).1 n2 (by simp)
        unfold RecLE recencyLE at h12
        rw [hd1, hd2] at h12
        simp at h12
        omega
      · exact h
    have hcore : (dedupCore q data).filter (ordemIs v) = [n2] := by
      rw [dedupCore_filter_key, hS]
      rfl
    have hne : data ≠ [] := List.ne_nil_of_mem hr1d
    have hm1' : r1 ∈ filterLine q data := by
      unfold filterLine
      exact List.mem_filter.mpr ⟨hr1d, hm1⟩
    have hfl : filterLine q data ≠ [] := List.ne_nil_of_mem hm1'
    have hn2mem : n2 ∈ dedupCore q data :=
      List.mem_of_mem_filter (show n2 ∈ (dedupCore q data).filter (ordemIs v) by
        rw [hcore]
        simp)
    have hrows_ne : dedupCore q data ≠ [] := List.ne_nil_of_mem hn2mem
    have hnotall : ¬((dedupCore q data).all (fun r => r.datahora.isNone) = true) := by
      rw [List.all_eq_true]
      intro hall
      have h' := hall n2 hn2mem
      rw [hd2] at h'
      simp at h'
    refine ⟨dedupCore q data, ?_, hcore, hd2⟩
    rw [process_some, if_neg hne, if_neg hfl]
    unfold locationStage
    rw [if_neg (by simp [husar]), if_neg (by simp [husar]), husar]
    unfold renderPlain
    rw [if_neg hrows_ne, if_neg hnotall]
    simp

/-- Witness for C1 (amended) at the two-record scenario with timestamps
1000 < 2000 and no reference point: the output holds exactly the
normalization of the most recent record of vehicle "A". -/
theorem C1_witness :
    ∃ rows, process dist100 q112 cfgOff (some [recA1, recA2]) =
        ProcResult.shownPlain rows ∧
      rows.filter (ordemIs ['A']) =
        [⟨['A'], some ['1', '1', '2'], ⟨-23, 0⟩, ⟨-44, 0⟩, some (-10798000), ['2', '0']⟩] ∧
      (⟨['A'], some ['1', '1', '2'], ⟨-23, 0⟩, ⟨-44, 0⟩, some (-10798000),
        ['2', '0']⟩ : NormRecord).datahora = some (2000 - brtShiftMs) :=
  C1_one_row_per_vehicle.2.2 dist100 q112 cfgOff [recA1, recA2] ['A'] recA1 recA2
    ⟨['A'], some ['1', '1', '2'], ⟨-22, 0⟩, ⟨-43, 0⟩, some (-10799000), ['1', '0']⟩
    ⟨['A'], some ['1', '1', '2'], ⟨-23, 0⟩, ⟨-44, 0⟩, some (-10798000), ['2', '0']⟩
    1000 2000 (by decide) (by decide) (by decide) (by decide) (by decide) (by decide)
    (by decide) (by decide) (by decide)

end BusTempo
